import Mathlib

/-!
Verification of the NeuroCore AI strategy simulation and profit
optimization engines (`utils/strategy_simulator.py` and
`utils/optimization.py`).

The Python code is shallowly embedded over exact rationals (ℚ).
Python's built-in `round` performs round-half-to-even; it is modelled
exactly by `roundHalfEven` / `pyRound` below.  `scipy.optimize.minimize`
is external library code; it is modelled as an oracle parameter
(`SolverOutcome`) carrying the solver's reported success flag, solution
point and message, exactly the fields the Python code reads from it.
-/

/-- Python's `round` to the nearest integer, ties going to the even
integer (banker's rounding), on exact rationals. -/
def roundHalfEven (x : ℚ) : ℤ :=
  let f := ⌊x⌋
  let r := x - f
  if r < 1/2 then f
  else if 1/2 < r then f + 1
  else if f % 2 = 0 then f else f + 1

/-- Python's `round(x, n)` for a non-negative number of digits `n`:
scale by `10^n`, round half to even, and scale back. -/
def pyRound (n : ℕ) (x : ℚ) : ℚ :=
  (roundHalfEven (x * 10 ^ n) : ℚ) / 10 ^ n

/-- Guarded division: Python raises `ZeroDivisionError` on a zero
divisor, so the checked embedding returns `none` there. -/
def qdiv (a b : ℚ) : Option ℚ :=
  if b = 0 then none else some (a / b)

/-- The dictionary returned by `simulate_strategy`
(`utils/strategy_simulator.py`, lines 79-91). -/
structure SimulationResult where
  base_revenue : ℚ
  base_cost : ℚ
  base_profit : ℚ
  projected_revenue : ℚ
  projected_cost : ℚ
  projected_profit : ℚ
  revenue_delta : ℚ
  cost_delta : ℚ
  profit_delta : ℚ
  roi_percent : ℚ
  risk_score : ℚ
  deriving Repr, DecidableEq

/-- `simulate_strategy` from `utils/strategy_simulator.py`, lines 9-91,
translated clause by clause over exact rationals. -/
def simulate_strategy (base_revenue base_cost marketing_increase_percent
    price_change_percent employee_hiring_count retention_investment
    avg_employee_cost churn_rate : ℚ) : SimulationResult :=
  let marketing_revenue_lift := base_revenue * (marketing_increase_percent / 100) * 0.5
  let pricing_revenue_impact := base_revenue * (price_change_percent / 100)
  let retention_revenue_lift := retention_investment * 3 * churn_rate
  let projected_revenue :=
    base_revenue + marketing_revenue_lift + pricing_revenue_impact + retention_revenue_lift
  let marketing_cost_increase := base_cost * (marketing_increase_percent / 100)
  let hiring_cost := employee_hiring_count * avg_employee_cost
  let projected_cost := base_cost + marketing_cost_increase + hiring_cost + retention_investment
  let base_profit := base_revenue - base_cost
  let projected_profit := projected_revenue - projected_cost
  let incremental_investment := projected_cost - base_cost
  let roi :=
    if incremental_investment > 0 then
      (projected_profit - base_profit) / incremental_investment * 100
    else 0.0
  let risk_score :=
    min 100
      (|marketing_increase_percent| * 0.4
        + |price_change_percent| * 1.2
        + employee_hiring_count * 0.3
        + (retention_investment / 10000) * 0.5)
  { base_revenue := pyRound 2 base_revenue
    base_cost := pyRound 2 base_cost
    base_profit := pyRound 2 base_profit
    projected_revenue := pyRound 2 projected_revenue
    projected_cost := pyRound 2 projected_cost
    projected_profit := pyRound 2 projected_profit
    revenue_delta := pyRound 2 (projected_revenue - base_revenue)
    cost_delta := pyRound 2 (projected_cost - base_cost)
    profit_delta := pyRound 2 (projected_profit - base_profit)
    roi_percent := pyRound 2 roi
    risk_score := pyRound 1 risk_score }

/-- The checked embedding of `simulate_strategy`: identical to
`simulate_strategy`, but its single division (the ROI computation,
lines 63-67 of the source) goes through the guarded `qdiv`, so a
reachable `ZeroDivisionError` would surface as `none`. -/
def simulate_strategy_checked (base_revenue base_cost marketing_increase_percent
    price_change_percent employee_hiring_count retention_investment
    avg_employee_cost churn_rate : ℚ) : Option SimulationResult :=
  let marketing_revenue_lift := base_revenue * (marketing_increase_percent / 100) * 0.5
  let pricing_revenue_impact := base_revenue * (price_change_percent / 100)
  let retention_revenue_lift := retention_investment * 3 * churn_rate
  let projected_revenue :=
    base_revenue + marketing_revenue_lift + pricing_revenue_impact + retention_revenue_lift
  let marketing_cost_increase := base_cost * (marketing_increase_percent / 100)
  let hiring_cost := employee_hiring_count * avg_employee_cost
  let projected_cost := base_cost + marketing_cost_increase + hiring_cost + retention_investment
  let base_profit := base_revenue - base_cost
  let projected_profit := projected_revenue - projected_cost
  let incremental_investment := projected_cost - base_cost
  let roiOpt :=
    if incremental_investment > 0 then
      (qdiv (projected_profit - base_profit) incremental_investment).map (fun q => q * 100)
    else some 0.0
  match roiOpt with
  | none => none
  | some roi =>
    let risk_score :=
      min 100
        (|marketing_increase_percent| * 0.4
          + |price_change_percent| * 1.2
          + employee_hiring_count * 0.3
          + (retention_investment / 10000) * 0.5)
    some
      { base_revenue := pyRound 2 base_revenue
        base_cost := pyRound 2 base_cost
        base_profit := pyRound 2 base_profit
        projected_revenue := pyRound 2 projected_revenue
        projected_cost := pyRound 2 projected_cost
        projected_profit := pyRound 2 projected_profit
        revenue_delta := pyRound 2 (projected_revenue - base_revenue)
        cost_delta := pyRound 2 (projected_cost - base_cost)
        profit_delta := pyRound 2 (projected_profit - base_profit)
        roi_percent := pyRound 2 roi
        risk_score := pyRound 1 risk_score }

/-- The dictionary returned by `optimize_profit`
(`utils/optimization.py`, lines 104-114). -/
structure OptimizationResult where
  optimized_marketing_increase_pct : ℚ
  optimized_price_change_pct : ℚ
  optimized_hiring_count : ℤ
  projected_revenue : ℚ
  projected_cost : ℚ
  projected_profit : ℚ
  risk_score : ℚ
  optimizer_success : Bool
  optimizer_message : String
  deriving Repr, DecidableEq

/-- The fields of the `scipy.optimize.minimize` return value that
`optimize_profit` reads (`result.success`, `result.x`, `result.message`).
The SLSQP solver is external library code and is modelled as an oracle:
theorems quantify over every outcome it could report. -/
structure SolverOutcome where
  success : Bool
  xm : ℚ
  xp : ℚ
  xh : ℚ
  message : String

/-- The nested `_profit_objective` of `optimize_profit`
(`utils/optimization.py`, lines 35-50): negative profit at the decision
point `(mktg_pct, price_pct, hires)`. -/
def profit_objective (base_revenue base_cost mktg_pct price_pct hires : ℚ) : ℚ :=
  let avg_emp_cost : ℚ := 60000
  let revenue := base_revenue + base_revenue * (mktg_pct / 100) * 0.5
    + base_revenue * (price_pct / 100)
  let cost := base_cost + base_cost * (mktg_pct / 100) + hires * avg_emp_cost
  Neg.neg (revenue - cost)

/-- The nested `_risk_constraint` of `optimize_profit`
(`utils/optimization.py`, lines 52-60). -/
def risk_constraint (risk_threshold mktg_pct price_pct hires : ℚ) : ℚ :=
  risk_threshold - (|mktg_pct| * 0.4 + |price_pct| * 1.2 + hires * 0.3)

/-- The nested `_budget_constraint` of `optimize_profit`
(`utils/optimization.py`, lines 62-67). -/
def budget_constraint (base_cost budget_limit mktg_pct hires : ℚ) : ℚ :=
  let avg_emp_cost : ℚ := 60000
  budget_limit - (base_cost * (mktg_pct / 100) + hires * avg_emp_cost)

/-- `optimize_profit` from `utils/optimization.py`, lines 11-114, after
the solver call: on `result.success = false` the code falls back to the
initial guess `x0 = (5, 2, 2)`, otherwise it unpacks `result.x`; it then
recomputes the projected figures at that point and rounds the fields
exactly as the `return` dictionary does.  `budget_limit` and
`risk_threshold` are only fed to the solver (through the constraint
closures above), so the post-solver code does not read them. -/
def optimize_profit (base_revenue base_cost budget_limit risk_threshold : ℚ)
    (result : SolverOutcome) : OptimizationResult :=
  let opt_mktg := if result.success then result.xm else 5
  let opt_price := if result.success then result.xp else 2
  let opt_hires := if result.success then result.xh else 2
  let avg_emp_cost : ℚ := 60000
  let opt_revenue := base_revenue + base_revenue * (opt_mktg / 100) * 0.5
    + base_revenue * (opt_price / 100)
  let opt_cost := base_cost + base_cost * (opt_mktg / 100) + opt_hires * avg_emp_cost
  let opt_profit := opt_revenue - opt_cost
  let opt_risk := min 100 (|opt_mktg| * 0.4 + |opt_price| * 1.2 + opt_hires * 0.3)
  { optimized_marketing_increase_pct := pyRound 2 opt_mktg
    optimized_price_change_pct := pyRound 2 opt_price
    optimized_hiring_count := roundHalfEven opt_hires
    projected_revenue := pyRound 2 opt_revenue
    projected_cost := pyRound 2 opt_cost
    projected_profit := pyRound 2 opt_profit
    risk_score := pyRound 1 opt_risk
    optimizer_success := result.success
    optimizer_message := result.message }

/-- Ambient interpreter state a Python call could read or write:
module-level mutable globals, the random-generator state, and an I/O
log.  The body of `simulate_strategy` references none of these. -/
structure GlobalState where
  randomSeed : ℕ
  moduleGlobals : List (String × ℚ)
  ioLog : List String

/-- State-passing translation of a call to `simulate_strategy`: the body
of the Python function (lines 35-91) contains no reference to
module-level state, no random call and no I/O statement, so the
translation computes the result from the arguments alone and threads the
interpreter state through unchanged. -/
def simulate_strategy_run (g : GlobalState) (base_revenue base_cost
    marketing_increase_percent price_change_percent employee_hiring_count
    retention_investment avg_employee_cost churn_rate : ℚ) :
    SimulationResult × GlobalState :=
  (simulate_strategy base_revenue base_cost marketing_increase_percent
    price_change_percent employee_hiring_count retention_investment
    avg_employee_cost churn_rate, g)

/-! ### Bounds for the rounding model -/

lemma roundHalfEven_le_of_le (x : ℚ) (n : ℤ) (h : x ≤ n) : roundHalfEven x ≤ n := by
  have hfl : ⌊x⌋ ≤ n := by
    have := Int.floor_le_floor h
    simpa using this
  simp only [roundHalfEven]
  split_ifs with h1 h2 h3
  · exact hfl
  · have hx : (⌊x⌋ : ℚ) + 1/2 ≤ x := by linarith [not_lt.mp h1]
    have hlt : (⌊x⌋ : ℚ) < (n : ℚ) := by linarith
    exact Int.cast_lt.mp hlt
  · exact hfl
  · have hx : (⌊x⌋ : ℚ) + 1/2 ≤ x := by linarith [not_lt.mp h1]
    have hlt : (⌊x⌋ : ℚ) < (n : ℚ) := by linarith
    exact Int.cast_lt.mp hlt

lemma le_roundHalfEven_of_le (x : ℚ) (n : ℤ) (h : (n : ℚ) ≤ x) : n ≤ roundHalfEven x := by
  have hfl : n ≤ ⌊x⌋ := Int.le_floor.mpr h
  simp only [roundHalfEven]
  split_ifs <;> omega

lemma pyRound_le_of_le (n : ℕ) (k : ℤ) (x : ℚ) (h : x ≤ (k : ℚ)) :
    pyRound n x ≤ (k : ℚ) := by
  unfold pyRound
  have hpow : (0 : ℚ) < 10 ^ n := by positivity
  rw [div_le_iff₀ hpow]
  have hx : x * 10 ^ n ≤ ((k * 10 ^ n : ℤ) : ℚ) := by
    push_cast
    exact mul_le_mul_of_nonneg_right h (le_of_lt hpow)
  have := roundHalfEven_le_of_le _ _ hx
  calc ((roundHalfEven (x * 10 ^ n) : ℤ) : ℚ) ≤ ((k * 10 ^ n : ℤ) : ℚ) := by
        exact_mod_cast this
    _ = (k : ℚ) * 10 ^ n := by push_cast; ring

lemma le_pyRound_of_le (n : ℕ) (k : ℤ) (x : ℚ) (h : (k : ℚ) ≤ x) :
    (k : ℚ) ≤ pyRound n x := by
  unfold pyRound
  have hpow : (0 : ℚ) < 10 ^ n := by positivity
  rw [le_div_iff₀ hpow]
  have hx : ((k * 10 ^ n : ℤ) : ℚ) ≤ x * 10 ^ n := by
    push_cast
    exact mul_le_mul_of_nonneg_right h (le_of_lt hpow)
  have := le_roundHalfEven_of_le _ _ hx
  calc (k : ℚ) * 10 ^ n = ((k * 10 ^ n : ℤ) : ℚ) := by push_cast; ring
    _ ≤ ((roundHalfEven (x * 10 ^ n) : ℤ) : ℚ) := by exact_mod_cast this

/-- Shared evaluation lemma: the guarded embedding of
`simulate_strategy` never hits the `none` branch, because the only
division is guarded by `incremental_investment > 0`. -/
lemma simulate_strategy_checked_eq (base_revenue base_cost
    marketing_increase_percent price_change_percent employee_hiring_count
    retention_investment avg_employee_cost churn_rate : ℚ) :
    simulate_strategy_checked base_revenue base_cost marketing_increase_percent
      price_change_percent employee_hiring_count retention_investment
      avg_employee_cost churn_rate =
    some (simulate_strategy base_revenue base_cost marketing_increase_percent
      price_change_percent employee_hiring_count retention_investment
      avg_employee_cost churn_rate) := by
  unfold simulate_strategy_checked simulate_strategy qdiv
  set incr := base_cost + base_cost * (marketing_increase_percent / 100)
    + employee_hiring_count * avg_employee_cost + retention_investment - base_cost with hincr
  by_cases hpos : incr > 0
  · have hne : incr ≠ 0 := ne_of_gt hpos
    simp [hpos, hne]
  · simp [hpos]

/-! ### Claims -/

/-- C1: for every positive baseline, non-negative budget limit and risk
threshold in `[0, 100]`, `optimize_profit` returns a result; when the
solver reports non-convergence the decision variables are the fixed
initial guess `(marketing = 5, price = 2, hires = 2)`, the financial
projection is recomputed from the formulas at that point,
`optimizer_success` is `false`, and the solver's failure message is
surfaced in `optimizer_message`. -/
theorem optimize_profit_fallback (br bc bl rt : ℚ) (res : SolverOutcome)
    (hbr : 0 < br) (hbc : 0 < bc) (hbl : 0 ≤ bl) (hrt0 : 0 ≤ rt) (hrt1 : rt ≤ 100)
    (hs : res.success = false) :
    (optimize_profit br bc bl rt res).optimized_marketing_increase_pct = 5 ∧
    (optimize_profit br bc bl rt res).optimized_price_change_pct = 2 ∧
    (optimize_profit br bc bl rt res).optimized_hiring_count = 2 ∧
    (optimize_profit br bc bl rt res).projected_revenue =
      pyRound 2 (br + br * (5 / 100) * 0.5 + br * (2 / 100)) ∧
    (optimize_profit br bc bl rt res).projected_cost =
      pyRound 2 (bc + bc * (5 / 100) + 2 * 60000) ∧
    (optimize_profit br bc bl rt res).projected_profit =
      pyRound 2 ((br + br * (5 / 100) * 0.5 + br * (2 / 100))
        - (bc + bc * (5 / 100) + 2 * 60000)) ∧
    (optimize_profit br bc bl rt res).risk_score =
      pyRound 1 (min 100 (|(5 : ℚ)| * 0.4 + |(2 : ℚ)| * 1.2 + 2 * 0.3)) ∧
    (optimize_profit br bc bl rt res).optimizer_success = false ∧
    (optimize_profit br bc bl rt res).optimizer_message = res.message := by
  have h5 : pyRound 2 (5 : ℚ) = 5 := by norm_num [pyRound, roundHalfEven]
  have h2 : pyRound 2 (2 : ℚ) = 2 := by norm_num [pyRound, roundHalfEven]
  have hh2 : roundHalfEven (2 : ℚ) = 2 := by norm_num [roundHalfEven]
  simp [optimize_profit, hs, h5, h2, hh2]

/-- Witness for C1 at baseline `(1, 1)`, budget `0`, threshold `50` and a
failed solver outcome. -/
theorem optimize_profit_fallback_witness :
    (0 : ℚ) < 1 ∧ (0 : ℚ) < 1 ∧ (0 : ℚ) ≤ 0 ∧ (0 : ℚ) ≤ 50 ∧ (50 : ℚ) ≤ 100 ∧
    (SolverOutcome.mk false 0 0 0 "Iteration limit reached").success = false ∧
    ((optimize_profit 1 1 0 50 (SolverOutcome.mk false 0 0 0 "Iteration limit reached")).optimized_marketing_increase_pct = 5 ∧
     (optimize_profit 1 1 0 50 (SolverOutcome.mk false 0 0 0 "Iteration limit reached")).optimized_price_change_pct = 2 ∧
     (optimize_profit 1 1 0 50 (SolverOutcome.mk false 0 0 0 "Iteration limit reached")).optimized_hiring_count = 2 ∧
     (optimize_profit 1 1 0 50 (SolverOutcome.mk false 0 0 0 "Iteration limit reached")).projected_revenue =
       pyRound 2 ((1 : ℚ) + 1 * (5 / 100) * 0.5 + 1 * (2 / 100)) ∧
     (optimize_profit 1 1 0 50 (SolverOutcome.mk false 0 0 0 "Iteration limit reached")).projected_cost =
       pyRound 2 ((1 : ℚ) + 1 * (5 / 100) + 2 * 60000) ∧
     (optimize_profit 1 1 0 50 (SolverOutcome.mk false 0 0 0 "Iteration limit reached")).projected_profit =
       pyRound 2 (((1 : ℚ) + 1 * (5 / 100) * 0.5 + 1 * (2 / 100))
         - ((1 : ℚ) + 1 * (5 / 100) + 2 * 60000)) ∧
     (optimize_profit 1 1 0 50 (SolverOutcome.mk false 0 0 0 "Iteration limit reached")).risk_score =
       pyRound 1 (min 100 (|(5 : ℚ)| * 0.4 + |(2 : ℚ)| * 1.2 + 2 * 0.3)) ∧
     (optimize_profit 1 1 0 50 (SolverOutcome.mk false 0 0 0 "Iteration limit reached")).optimizer_success = false ∧
     (optimize_profit 1 1 0 50 (SolverOutcome.mk false 0 0 0 "Iteration limit reached")).optimizer_message =
       (SolverOutcome.mk false 0 0 0 "Iteration limit reached").message) :=
  ⟨one_pos, one_pos, le_refl 0, by norm_num, by norm_num, rfl,
    optimize_profit_fallback 1 1 0 50 (SolverOutcome.mk false 0 0 0 "Iteration limit reached")
      one_pos one_pos (le_refl 0) (by norm_num) (by norm_num) rfl⟩

/-- C2 counterexample: with a successful solver outcome whose hiring
value is the fractional `3/2`, the hiring count field is rounded to `2`,
but the reported `projected_cost` is `790000`, computed from the raw
`3/2` — recomputing the formula at the rounded count `2` gives `820000`
instead. -/
theorem optimize_profit_rounded_recompute_cex :
    (optimize_profit 1000000 700000 1000000 50
        (SolverOutcome.mk true 0 0 (3/2) "Optimization terminated successfully")).optimized_hiring_count = 2 ∧
    (optimize_profit 1000000 700000 1000000 50
        (SolverOutcome.mk true 0 0 (3/2) "Optimization terminated successfully")).projected_cost = 790000 ∧
    pyRound 2 ((700000 : ℚ) + 700000 * (0 / 100) + (2 : ℚ) * 60000) = 820000 ∧
    (790000 : ℚ) ≠ 820000 := by
  refine ⟨?_, ?_, ?_, by norm_num⟩ <;>
    norm_num [optimize_profit, pyRound, roundHalfEven]

/-- C2 (amended): the hiring count field of the result is the solver's
(or fallback's) hiring value rounded half-to-even to an integer, but the
reported `projected_revenue`, `projected_cost`, `projected_profit` and
`risk_score` are recomputed from the formulas at the raw — possibly
fractional — hiring value, not at the rounded one. -/
theorem optimize_profit_raw_recompute (br bc bl rt : ℚ) (res : SolverOutcome) :
    (optimize_profit br bc bl rt res).optimized_hiring_count =
      roundHalfEven (if res.success then res.xh else 2) ∧
    (optimize_profit br bc bl rt res).projected_revenue =
      pyRound 2 (br + br * ((if res.success then res.xm else 5) / 100) * 0.5
        + br * ((if res.success then res.xp else 2) / 100)) ∧
    (optimize_profit br bc bl rt res).projected_cost =
      pyRound 2 (bc + bc * ((if res.success then res.xm else 5) / 100)
        + (if res.success then res.xh else 2) * 60000) ∧
    (optimize_profit br bc bl rt res).projected_profit =
      pyRound 2 ((br + br * ((if res.success then res.xm else 5) / 100) * 0.5
        + br * ((if res.success then res.xp else 2) / 100))
        - (bc + bc * ((if res.success then res.xm else 5) / 100)
          + (if res.success then res.xh else 2) * 60000)) ∧
    (optimize_profit br bc bl rt res).risk_score =
      pyRound 1 (min 100 (|if res.success then res.xm else 5| * 0.4
        + |if res.success then res.xp else 2| * 1.2
        + (if res.success then res.xh else 2) * 0.3)) :=
  ⟨rfl, rfl, rfl, rfl, rfl⟩

/-- C3: the financial figures `optimize_profit` recomputes at its result
point `(m, p, h)` (an integer hiring count) are exactly the figures
`simulate_strategy` returns for the same baseline and decision with
`retention_investment = 0` and the same `avg_employee_cost = 60000`,
for any churn rate. -/
theorem optimize_profit_refines_simulate (br bc bl rt m p : ℚ) (h : ℤ)
    (churn : ℚ) (msg : String) :
    (optimize_profit br bc bl rt (SolverOutcome.mk true m p (h : ℚ) msg)).projected_revenue =
      (simulate_strategy br bc m p (h : ℚ) 0 60000 churn).projected_revenue ∧
    (optimize_profit br bc bl rt (SolverOutcome.mk true m p (h : ℚ) msg)).projected_cost =
      (simulate_strategy br bc m p (h : ℚ) 0 60000 churn).projected_cost ∧
    (optimize_profit br bc bl rt (SolverOutcome.mk true m p (h : ℚ) msg)).projected_profit =
      (simulate_strategy br bc m p (h : ℚ) 0 60000 churn).projected_profit ∧
    (optimize_profit br bc bl rt (SolverOutcome.mk true m p (h : ℚ) msg)).risk_score =
      (simulate_strategy br bc m p (h : ℚ) 0 60000 churn).risk_score := by
  refine ⟨?_, ?_, ?_, ?_⟩
  · simp only [optimize_profit, simulate_strategy, if_true]
    congr 1
    ring
  · simp only [optimize_profit, simulate_strategy, if_true]
    congr 1
    ring
  · simp only [optimize_profit, simulate_strategy, if_true]
    congr 1
    ring
  · simp only [optimize_profit, simulate_strategy, if_true]
    congr 2
    ring

/-- C4: the risk score returned by `simulate_strategy` equals
`min(100, 0.4·|marketing| + 1.2·|price| + 0.3·hires +
0.05·(retention/1000))` rounded to one decimal, and for non-negative
hiring count and retention investment it lies in `[0, 100]`, however
large the other inputs are. -/
theorem simulate_strategy_risk_score (br bc m p h ret avg churn : ℚ)
    (hh : 0 ≤ h) (hr : 0 ≤ ret) :
    (simulate_strategy br bc m p h ret avg churn).risk_score =
      pyRound 1 (min 100 (0.4 * |m| + 1.2 * |p| + 0.3 * h + 0.05 * (ret / 1000))) ∧
    0 ≤ (simulate_strategy br bc m p h ret avg churn).risk_score ∧
    (simulate_strategy br bc m p h ret avg churn).risk_score ≤ 100 := by
  have hfield : (simulate_strategy br bc m p h ret avg churn).risk_score =
      pyRound 1 (min 100 (0.4 * |m| + 1.2 * |p| + 0.3 * h + 0.05 * (ret / 1000))) := by
    simp only [simulate_strategy]
    congr 2
    ring
  have hX0 : (0 : ℚ) ≤ min 100 (0.4 * |m| + 1.2 * |p| + 0.3 * h + 0.05 * (ret / 1000)) := by
    refine le_min (by norm_num) ?_
    have h1 := abs_nonneg m
    have h2 := abs_nonneg p
    linarith
  have hX100 : min (100 : ℚ) (0.4 * |m| + 1.2 * |p| + 0.3 * h + 0.05 * (ret / 1000)) ≤ 100 :=
    min_le_left _ _
  refine ⟨hfield, ?_, ?_⟩
  · rw [hfield]
    have := le_pyRound_of_le 1 0
      (min 100 (0.4 * |m| + 1.2 * |p| + 0.3 * h + 0.05 * (ret / 1000))) (by exact_mod_cast hX0)
    exact_mod_cast this
  · rw [hfield]
    have := pyRound_le_of_le 1 100
      (min 100 (0.4 * |m| + 1.2 * |p| + 0.3 * h + 0.05 * (ret / 1000))) (by exact_mod_cast hX100)
    exact_mod_cast this

/-- Witness for C4 at the arbitrarily large `marketing_pct = 10000`. -/
theorem simulate_strategy_risk_score_witness :
    (0 : ℚ) ≤ 0 ∧ (0 : ℚ) ≤ 0 ∧
    ((simulate_strategy 1 1 10000 0 0 0 60000 (3/20)).risk_score =
      pyRound 1 (min 100 (0.4 * |(10000 : ℚ)| + 1.2 * |(0 : ℚ)| + 0.3 * 0 + 0.05 * (0 / 1000))) ∧
    0 ≤ (simulate_strategy 1 1 10000 0 0 0 60000 (3/20)).risk_score ∧
    (simulate_strategy 1 1 10000 0 0 0 60000 (3/20)).risk_score ≤ 100) :=
  ⟨le_refl 0, le_refl 0,
    simulate_strategy_risk_score 1 1 10000 0 0 0 60000 (3/20) (le_refl 0) (le_refl 0)⟩

/-- C5: the returned `roi_percent` is exactly `0` whenever the
incremental investment `projected_cost − base_cost` is non-positive,
regardless of the revenue delta, and otherwise equals
`(projected_profit − base_profit) / incremental_investment × 100`
rounded to two decimals. -/
theorem simulate_strategy_roi (br bc m p h ret avg churn : ℚ) :
    (simulate_strategy br bc m p h ret avg churn).roi_percent =
      if bc + bc * (m / 100) + h * avg + ret - bc ≤ 0 then 0
      else pyRound 2
        ((br + br * (m / 100) * 0.5 + br * (p / 100) + ret * 3 * churn
          - (bc + bc * (m / 100) + h * avg + ret) - (br - bc))
          / (bc + bc * (m / 100) + h * avg + ret - bc) * 100) := by
  simp only [simulate_strategy]
  by_cases hpos : bc + bc * (m / 100) + h * avg + ret - bc > 0
  · rw [if_pos hpos, if_neg (not_le.mpr hpos)]
  · rw [if_neg hpos, if_pos (not_lt.mp hpos)]
    norm_num [pyRound, roundHalfEven]

/-- C6: the reference scenario `simulate(base_revenue = 10000000,
base_cost = 7000000, marketing = 10, price = 5, hires = 5,
retention = 100000, churn_rate = 0.15)` returns exactly
`projected_revenue = 11045000`, `projected_cost = 8100000`,
`profit_delta = −55000`, `roi_percent = −5`, `risk_score = 16.5`
(the retention lift being `100000 × 3 × 0.15 = 45000`). -/
theorem simulate_strategy_reference_scenario :
    (simulate_strategy 10000000 7000000 10 5 5 100000 60000 0.15).projected_revenue = 11045000 ∧
    (simulate_strategy 10000000 7000000 10 5 5 100000 60000 0.15).projected_cost = 8100000 ∧
    (simulate_strategy 10000000 7000000 10 5 5 100000 60000 0.15).profit_delta = -55000 ∧
    (simulate_strategy 10000000 7000000 10 5 5 100000 60000 0.15).roi_percent = -5 ∧
    (simulate_strategy 10000000 7000000 10 5 5 100000 60000 0.15).risk_score = 16.5 := by
  refine ⟨?_, ?_, ?_, ?_, ?_⟩ <;>
    norm_num [simulate_strategy, pyRound, roundHalfEven]

/-- C7: for every positive baseline and any churn rate, simulating with
all decision inputs zero returns a projection identical to the baseline:
the `projected_revenue` field equals the `base_revenue` field and the
`projected_cost` field equals the `base_cost` field. -/
theorem simulate_strategy_identity_case (br bc avg churn : ℚ)
    (hbr : 0 < br) (hbc : 0 < bc) :
    (simulate_strategy br bc 0 0 0 0 avg churn).projected_revenue =
      (simulate_strategy br bc 0 0 0 0 avg churn).base_revenue ∧
    (simulate_strategy br bc 0 0 0 0 avg churn).projected_cost =
      (simulate_strategy br bc 0 0 0 0 avg churn).base_cost := by
  constructor
  · simp only [simulate_strategy]
    congr 1
    ring
  · simp only [simulate_strategy]
    congr 1
    ring

/-- Witness for C7 at baseline `(1, 1)`. -/
theorem simulate_strategy_identity_case_witness :
    (0 : ℚ) < 1 ∧ (0 : ℚ) < 1 ∧
    ((simulate_strategy 1 1 0 0 0 0 60000 (3/20)).projected_revenue =
      (simulate_strategy 1 1 0 0 0 0 60000 (3/20)).base_revenue ∧
    (simulate_strategy 1 1 0 0 0 0 60000 (3/20)).projected_cost =
      (simulate_strategy 1 1 0 0 0 0 60000 (3/20)).base_cost) :=
  ⟨one_pos, one_pos, simulate_strategy_identity_case 1 1 60000 (3/20) one_pos one_pos⟩

/-- C8 counterexample: a non-positive baseline is not rejected and not
clamped — `simulate_strategy` with `base_revenue = −1000000` and
`base_cost = −500000` runs the financial computation on the invalid
baseline and returns `projected_revenue = −1050000` and
`projected_cost = −550000`, values that can only arise from the invalid
baseline itself; `optimize_profit` likewise returns a projection
computed from the negative baseline. -/
theorem baseline_validation_cex :
    simulate_strategy_checked (-1000000) (-500000) 10 0 0 0 60000 0.15 =
      some (simulate_strategy (-1000000) (-500000) 10 0 0 0 60000 0.15) ∧
    (simulate_strategy (-1000000) (-500000) 10 0 0 0 60000 0.15).projected_revenue = -1050000 ∧
    (simulate_strategy (-1000000) (-500000) 10 0 0 0 60000 0.15).projected_cost = -550000 ∧
    (optimize_profit (-1000000) (-500000) 0 50
        (SolverOutcome.mk false 0 0 0 "Positive directional derivative for linesearch")).projected_revenue = -1045000 := by
  refine ⟨simulate_strategy_checked_eq _ _ _ _ _ _ _ _, ?_, ?_, ?_⟩ <;>
    norm_num [simulate_strategy, optimize_profit, pyRound, roundHalfEven]

/-- C8 (amended): neither `simulate_strategy` nor `optimize_profit`
validates the baseline; a call with non-positive `base_revenue` or
`base_cost` is not rejected and not clamped — the financial computation
proceeds on the invalid baseline and returns a normally computed
result. -/
theorem baseline_not_validated (br bc m p h ret avg churn bl rt : ℚ)
    (res : SolverOutcome) (hb : br ≤ 0 ∨ bc ≤ 0) :
    simulate_strategy_checked br bc m p h ret avg churn =
      some (simulate_strategy br bc m p h ret avg churn) ∧
    (optimize_profit br bc bl rt res).projected_revenue =
      pyRound 2 (br + br * ((if res.success then res.xm else 5) / 100) * 0.5
        + br * ((if res.success then res.xp else 2) / 100)) :=
  ⟨simulate_strategy_checked_eq br bc m p h ret avg churn, rfl⟩

/-- Witness for C8 (amended) at `base_revenue = −1`. -/
theorem baseline_not_validated_witness :
    ((-1 : ℚ) ≤ 0 ∨ (1 : ℚ) ≤ 0) ∧
    (simulate_strategy_checked (-1) 1 0 0 0 0 60000 (3/20) =
      some (simulate_strategy (-1) 1 0 0 0 0 60000 (3/20)) ∧
    (optimize_profit (-1) 1 0 50 (SolverOutcome.mk false 0 0 0 "fail")).projected_revenue =
      pyRound 2 ((-1 : ℚ) + (-1) * ((if (SolverOutcome.mk false 0 0 0 "fail").success then (SolverOutcome.mk false 0 0 0 "fail").xm else 5) / 100) * 0.5
        + (-1) * ((if (SolverOutcome.mk false 0 0 0 "fail").success then (SolverOutcome.mk false 0 0 0 "fail").xp else 2) / 100))) :=
  ⟨Or.inl (by norm_num),
    baseline_not_validated (-1) 1 0 0 0 0 60000 (3/20) 0 50
      (SolverOutcome.mk false 0 0 0 "fail") (Or.inl (by norm_num))⟩

/-- C9: `simulate_strategy` is total — for every rational input,
including zero or negative baselines and out-of-range decision values,
the guarded embedding returns `some` result equal to the plain one; its
only division, in the ROI computation, is unreachable in the error
branch because it is guarded by `incremental_investment > 0`. -/
theorem simulate_strategy_total (br bc m p h ret avg churn : ℚ) :
    simulate_strategy_checked br bc m p h ret avg churn =
      some (simulate_strategy br bc m p h ret avg churn) :=
  simulate_strategy_checked_eq br bc m p h ret avg churn

/-- C10: `simulate_strategy` is deterministic — its state-passing
translation computes a result that does not depend on the ambient
interpreter state, and it leaves that state unchanged, so two calls with
identical arguments return identical results. -/
theorem simulate_strategy_deterministic (g1 g2 : GlobalState)
    (br bc m p h ret avg churn : ℚ) :
    (simulate_strategy_run g1 br bc m p h ret avg churn).1 =
      (simulate_strategy_run g2 br bc m p h ret avg churn).1 ∧
    (simulate_strategy_run g1 br bc m p h ret avg churn).2 = g1 :=
  ⟨rfl, rfl⟩
